import Mathlib

/-!
Formal model of the UnicornClock repository.

The model covers the adaptive brightness controller of
src/unicornclock/brightness.py (rolling light average, piecewise-linear
target, dwell-based hysteresis, bounded smoothing ramp, manual level
adjustment) and the input/mode loop of src/example.py (mode/effect
switching, the persistence timer, the settings restore at startup, and
the order in which renderers are started).

Modelling conventions: Python floats are modelled as rationals,
MicroPython tick counters and wall-clock seconds as integers
(time.ticks_diff is modelled as plain subtraction, i.e. no counter
wraparound), and the light-reading buffer as a list.  Python truthiness
of an optional integer field (None and 0 are both falsy) is modelled
explicitly wherever the source relies on it.
-/

namespace UnicornClock

/-- Class constants of Brightness (src/unicornclock/brightness.py). -/
def MIN_LIGHT : ℚ := 15

def MAX_LIGHT : ℚ := 21

def MIN_BRIGHTNESS : ℚ := 6/100

def MAX_BRIGHTNESS : ℚ := 31/100

def LIGHT_SAMPLES : Nat := 5

def TARGET_CHANGE_DELAY_MS : ℤ := 1000

def TARGET_EPSILON : ℚ := 5/1000

/-- MODE_AUTO / MODE_MANUAL of Brightness. -/
inductive Mode
  | auto
  | manual
deriving DecidableEq

/-- State of one Brightness instance: the instance attributes set in
Brightness.__init__ plus the actuator value last written through
galactic.set_brightness (galactic_brightness). -/
structure BState where
  mode : Mode
  level : ℤ
  current_brightness : ℚ
  light_readings : List ℚ
  stable_target : ℚ
  pending_target : Option ℚ
  pending_since : Option ℤ
  galactic_brightness : ℚ
deriving DecidableEq

/-- Brightness.get_corrected_level: max(0, min(1, level / 100)). -/
def get_corrected_level (level : ℤ) : ℚ :=
  max 0 (min 1 ((level : ℚ) / 100))

/-- Buffer mutation of Brightness.record_light_reading: append the raw
reading, then pop the oldest entry when the buffer exceeds LIGHT_SAMPLES. -/
def record_buffer (readings : List ℚ) (light_value : ℚ) : List ℚ :=
  let appended := readings ++ [light_value]
  if LIGHT_SAMPLES < appended.length then appended.drop 1 else appended

/-- Brightness.record_light_reading: mutate the buffer and return the
arithmetic mean of its contents. -/
def record_light_reading (readings : List ℚ) (light_value : ℚ) : List ℚ × ℚ :=
  let updated := record_buffer readings light_value
  (updated, updated.sum / (updated.length : ℚ))

/-- Auto-mode branch of Brightness.get_target_brightness applied to the
averaged light value, including the final max(0, min(1, target)) clamp. -/
def target_from_light (light_value : ℚ) : ℚ :=
  let target :=
    if light_value ≤ MIN_LIGHT then MIN_BRIGHTNESS
    else if MAX_LIGHT ≤ light_value then MAX_BRIGHTNESS
    else
      let span := MAX_LIGHT - MIN_LIGHT
      let position := (light_value - MIN_LIGHT) / span
      MIN_BRIGHTNESS + position * (MAX_BRIGHTNESS - MIN_BRIGHTNESS)
  max 0 (min 1 target)

/-- Brightness.get_target_brightness.  In manual mode it returns the
corrected manual level without touching the buffer; in auto mode it
records the raw light reading and maps the rolling average through
target_from_light.  Returns the updated state together with the target. -/
def get_target_brightness (s : BState) (raw_light : ℚ) : BState × ℚ :=
  match s.mode with
  | Mode.manual => (s, get_corrected_level s.level)
  | Mode.auto =>
    let r := record_light_reading s.light_readings raw_light
    ({ s with light_readings := r.1 }, target_from_light r.2)

/-- Brightness._is_target_close: abs(target_a - target_b) < TARGET_EPSILON. -/
def is_target_close (a b : ℚ) : Prop :=
  |a - b| < TARGET_EPSILON

instance (a b : ℚ) : Decidable (is_target_close a b) := by
  unfold is_target_close
  infer_instance

/-- The three hysteresis fields of a Brightness instance, isolated so the
auto-mode branch of Brightness.update can be stated over traces. -/
structure HState where
  stable_target : ℚ
  pending_target : Option ℚ
  pending_since : Option ℤ
deriving DecidableEq

/-- time.ticks_diff(now, since), assuming no counter wraparound. -/
def ticks_diff (now since : ℤ) : ℤ := now - since

/-- Auto-mode hysteresis branch of Brightness.update, line for line.  The
guard `self.pending_since and ...` uses Python truthiness: both None and
the tick value 0 are falsy, so neither promotes the pending target. -/
def hysteresis_step (h : HState) (target : ℚ) (now : ℤ) : HState :=
  if is_target_close target h.stable_target then
    { h with pending_target := none, pending_since := none }
  else
    match h.pending_target with
    | none => { h with pending_target := some target, pending_since := some now }
    | some pending =>
      if ¬ is_target_close target pending then
        { h with pending_target := some target, pending_since := some now }
      else
        match h.pending_since with
        | some since =>
          if since ≠ 0 ∧ TARGET_CHANGE_DELAY_MS ≤ ticks_diff now since then
            { stable_target := pending, pending_target := none, pending_since := none }
          else h
        | none => h

/-- Smoothing ramp at the end of Brightness.update: move
current_brightness toward the target by at most step = 0.02, never past
the target. -/
def advance (current target : ℚ) : ℚ :=
  let step : ℚ := 2/100
  if current < target then min target (current + step)
  else max target (current - step)

/-- Brightness.update: compute the candidate target, apply the hysteresis
(auto) or adopt the candidate immediately (manual), then ramp
current_brightness toward the effective target and write the actuator. -/
def update (s : BState) (raw_light : ℚ) (now : ℤ) : BState :=
  let first := get_target_brightness s raw_light
  let s1 := first.1
  let target := first.2
  let after :=
    match s1.mode with
    | Mode.auto =>
      let h := hysteresis_step ⟨s1.stable_target, s1.pending_target, s1.pending_since⟩ target now
      ({ s1 with stable_target := h.stable_target,
                 pending_target := h.pending_target,
                 pending_since := h.pending_since },
       h.stable_target)
    | Mode.manual =>
      ({ s1 with stable_target := target, pending_target := none, pending_since := none },
       target)
  let s2 := after.1
  let eff := after.2
  let c := advance s2.current_brightness eff
  { s2 with current_brightness := c, galactic_brightness := c }

/-- Brightness.set_level: stores the argument without any validation. -/
def set_level (s : BState) (level : ℤ) : BState :=
  { s with level := level }

/-- Brightness.adjust: a no-op in auto mode; in manual mode clamp the new
level into [0, 100], set current_brightness to the corrected level and
write the actuator immediately. -/
def adjust (s : BState) (value : ℤ) : BState :=
  match s.mode with
  | Mode.auto => s
  | Mode.manual =>
    let level := max 0 (min 100 (s.level + value))
    let corrected := get_corrected_level level
    { s with level := level, current_brightness := corrected,
             galactic_brightness := corrected }

/-- Number of entries of the `effects` list in src/example.py. -/
def effects_count : ℤ := 4

/-- switch_mode handler in src/example.py: mode = (mode + 1) % 4. -/
def switch_mode (mode : ℤ) : ℤ := (mode + 1) % 4

/-- switch_effect handler in src/example.py:
effect = (effect + 1) % len(effects). -/
def switch_effect (effect : ℤ) : ℤ := (effect + 1) % effects_count

/-- JSON values as produced by json.loads in src/example.py. -/
inductive JVal
  | num (n : ℤ)
  | str (s : String)
  | bool (b : Bool)
  | null
  | arr (items : List JVal)
  | obj (fields : List (String × JVal))

/-- Outcome of `open(SETTINGS_FILE).read()` followed by json.loads:
OSError (absent or unreadable file), ValueError (malformed JSON), or a
parsed JSON value. -/
inductive ReadResult
  | os_error
  | malformed_json
  | parsed (v : JVal)

/-- dict.get(key, default) on a parsed JSON object. -/
def dict_get (fields : List (String × JVal)) (key : String) (dflt : JVal) : JVal :=
  match fields.lookup key with
  | some v => v
  | none => dflt

/-- The restored (mode, effect, am_pm_mode) globals of src/example.py,
kept as raw JSON values since the restore code performs no type checks. -/
structure RestoredSettings where
  mode : JVal
  effect : JVal
  am_pm_mode : JVal

/-- Settings restore block of src/example.py.  The globals start at
mode = 0, effect = 0, am_pm_mode = False; the try block catches OSError
and ValueError only, so a file whose content parses to a non-object JSON
value reaches `d.get(...)` and raises an uncaught AttributeError,
modelled as Except.error. -/
def restore_settings : ReadResult → Except Unit RestoredSettings
  | ReadResult.os_error => Except.ok ⟨JVal.num 0, JVal.num 0, JVal.bool false⟩
  | ReadResult.malformed_json => Except.ok ⟨JVal.num 0, JVal.num 0, JVal.bool false⟩
  | ReadResult.parsed (JVal.obj fields) =>
    Except.ok ⟨dict_get fields "mode" (JVal.num 0),
               dict_get fields "effect" (JVal.num 0),
               dict_get fields "am_pm_mode" (JVal.bool false)⟩
  | ReadResult.parsed _ => Except.error ()

/-- Clock x positions (Position.LEFT / RIGHT / CENTER). -/
inductive XPos
  | left
  | right
  | center
deriving DecidableEq

/-- Configuration a renderer is started with by load_example. -/
structure RenderCfg where
  effect_index : ℤ
  x : XPos
  show_seconds : Bool
  am_pm_mode : Bool
  hour_callback : Bool
  space_between_char : Option ℤ
deriving DecidableEq

/-- Keyword overrides passed to load_example (none means the
default_kwargs value is kept). -/
structure ClockKwargs where
  x : Option XPos
  show_seconds : Option Bool
  hour_callback : Option Bool
  space_between_char : Option ℤ

/-- load_example in src/example.py: default kwargs
{x: RIGHT, show_seconds: True, am_pm_mode: <global>} updated with the
caller's overrides. -/
def load_example_cfg (effect_index : ℤ) (global_am_pm : Bool) (kw : ClockKwargs) : RenderCfg :=
  { effect_index := effect_index,
    x := kw.x.getD XPos.right,
    show_seconds := kw.show_seconds.getD true,
    am_pm_mode := global_am_pm,
    hour_callback := kw.hour_callback.getD false,
    space_between_char := kw.space_between_char }

/-- Per-mode clock kwargs built by load_current_example in
buttons_handler; a mode outside 0..3 leaves clock_kwargs unbound
(UnboundLocalError), modelled as none. -/
def clock_kwargs_for_mode (mode : ℤ) : Option ClockKwargs :=
  if mode = 0 then some ⟨some XPos.right, none, some true, none⟩
  else if mode = 1 then some ⟨some XPos.left, none, some true, none⟩
  else if mode = 2 then some ⟨some XPos.center, none, some false, some 2⟩
  else if mode = 3 then some ⟨some XPos.center, some false, some false, some 2⟩
  else none

/-- Keyword parameter names of Brightness.__init__ after the positional
galactic argument: level (default 50) and mode (default MODE_AUTO).
Python raises TypeError for any keyword argument that is not one of
these names; only then does the constructor body run. -/
def brightness_init_keywords : List String := ["level", "mode"]

/-- Python keyword binding for a Brightness(galactic, **kwargs) call:
TypeError (Except.error) on an unexpected keyword, otherwise the bound
(level, mode) pair with the declared defaults. -/
def brightness_bind_kwargs (kwargs : List (String × ℤ)) : Except Unit (ℤ × ℤ) :=
  if kwargs.all (fun kv => brightness_init_keywords.contains kv.1) then
    Except.ok ((kwargs.lookup "level").getD 50, (kwargs.lookup "mode").getD 0)
  else
    Except.error ()

/-- The keyword arguments of the call `Brightness(galactic, offset=20)`,
the first statement of example() in src/example.py. -/
def example_brightness_kwargs : List (String × ℤ) := [("offset", 20)]

/-- The startup path of example(): its first statement constructs
Brightness with the offset keyword, which __init__ does not declare, so
TypeError propagates before wlan_connection, before either task is
created and before any load_example call.  Only if that construction
succeeded would the renderer start sequence follow: the hard-coded
load_example(0, callback_hour_change=update_calendar), awaited
synchronously, and then the scheduled buttons_handler task's initial
load_current_example with the restored globals. -/
def example_startup (mode effect : ℤ) (am_pm : Bool) : Except Unit (List RenderCfg) :=
  match brightness_bind_kwargs example_brightness_kwargs with
  | Except.error e => Except.error e
  | Except.ok _ =>
    match clock_kwargs_for_mode mode with
    | none => Except.error ()
    | some kw =>
      Except.ok [load_example_cfg 0 am_pm ⟨none, none, some true, none⟩,
                 load_example_cfg effect am_pm kw]

/-- The (mode, effect, am_pm_mode) global intent of src/example.py. -/
structure Intent where
  mode : ℤ
  effect : ℤ
  am_pm_mode : Bool
deriving DecidableEq

/-- State of the while loop at the end of buttons_handler: the applied
(current_*) intent, last_change_time, and the log of settings writes
performed so far (write time paired with the written record). -/
structure LoopState where
  applied : Intent
  last_change_time : Option ℤ
  writes : List (ℤ × Intent)
deriving DecidableEq

/-- One iteration of the while loop in buttons_handler: reload and stamp
last_change_time on an observed intent change, then write the settings
file when `last_change_time and last_change_time + 5 < time.time()`
(Python truthiness: a recorded time of 0 never triggers the write). -/
def loop_tick (s : LoopState) (intent : Intent) (now : ℤ) : LoopState :=
  let s1 :=
    if intent ≠ s.applied then
      { s with applied := intent, last_change_time := some now }
    else s
  match s1.last_change_time with
  | some lc =>
    if lc ≠ 0 ∧ lc + 5 < now then
      { s1 with writes := s1.writes ++ [(now, intent)], last_change_time := none }
    else s1
  | none => s1

/-- Iterated loop_tick over a list of (observed intent, time) polls. -/
def run_loop (s : LoopState) (ticks : List (Intent × ℤ)) : LoopState :=
  ticks.foldl (fun st p => loop_tick st p.1 p.2) s

/-- Iterated hysteresis_step over a trace of (candidate, now) inputs. -/
def run_h (h : HState) (trace : List (ℚ × ℤ)) : HState :=
  trace.foldl (fun st p => hysteresis_step st p.1 p.2) h

/-- Hysteresis state after the first k steps of a trace. -/
def h_after (h : HState) (trace : List (ℚ × ℤ)) (k : Nat) : HState :=
  run_h h (trace.take k)

/-- Candidate target proposed at step k of a trace. -/
def cand_at (trace : List (ℚ × ℤ)) (k : Nat) : ℚ :=
  (trace.getD k (0, 0)).1

/-- Tick time of step k of a trace. -/
def time_at (trace : List (ℚ × ℤ)) (k : Nat) : ℤ :=
  (trace.getD k (0, 0)).2

/-! ## Claim C2: target brightness calculation -/

theorem target_from_light_low {v : ℚ} (h : v ≤ MIN_LIGHT) :
    target_from_light v = MIN_BRIGHTNESS := by
  rw [target_from_light]
  simp only [if_pos h]
  norm_num [MIN_BRIGHTNESS]

theorem target_from_light_high {v : ℚ} (h : MAX_LIGHT ≤ v) :
    target_from_light v = MAX_BRIGHTNESS := by
  have hv : ¬ v ≤ MIN_LIGHT := by
    rw [MIN_LIGHT]
    rw [MAX_LIGHT] at h
    linarith
  rw [target_from_light]
  simp only [if_neg hv, if_pos h]
  norm_num [MAX_BRIGHTNESS]

theorem target_from_light_mid {v : ℚ} (h1 : MIN_LIGHT < v) (h2 : v < MAX_LIGHT) :
    target_from_light v =
      MIN_BRIGHTNESS + (v - MIN_LIGHT) / (MAX_LIGHT - MIN_LIGHT) * (MAX_BRIGHTNESS - MIN_BRIGHTNESS) := by
  have hv : ¬ v ≤ MIN_LIGHT := not_le.mpr h1
  have hv2 : ¬ MAX_LIGHT ≤ v := not_le.mpr h2
  rw [target_from_light]
  simp only [if_neg hv, if_neg hv2]
  rw [MIN_LIGHT, MAX_LIGHT, MIN_BRIGHTNESS, MAX_BRIGHTNESS] at *
  have hub : (6/100 : ℚ) + (v - 15) / (21 - 15) * (31/100 - 6/100) ≤ 1 := by nlinarith
  have hlb : (0 : ℚ) ≤ 6/100 + (v - 15) / (21 - 15) * (31/100 - 6/100) := by nlinarith
  rw [min_eq_right hub, max_eq_right hlb]

/-- Claim C2: in auto mode the target computed from an averaged light
value v is exactly MIN_BRIGHTNESS for v ≤ MIN_LIGHT, exactly
MAX_BRIGHTNESS for v ≥ MAX_LIGHT, monotone non-decreasing for
MIN_LIGHT < v < MAX_LIGHT, and always within [0, 1]; get_target_brightness
feeds the rolling average through this map in auto mode, and in manual
mode returns clamp(level / 100, 0, 1). -/
theorem C2_target_brightness :
    (∀ v : ℚ, v ≤ MIN_LIGHT → target_from_light v = MIN_BRIGHTNESS) ∧
    (∀ v : ℚ, MAX_LIGHT ≤ v → target_from_light v = MAX_BRIGHTNESS) ∧
    (∀ v w : ℚ, MIN_LIGHT < v → v ≤ w → w < MAX_LIGHT →
      target_from_light v ≤ target_from_light w) ∧
    (∀ v : ℚ, 0 ≤ target_from_light v ∧ target_from_light v ≤ 1) ∧
    (∀ (s : BState) (raw : ℚ), s.mode = Mode.auto →
      (get_target_brightness s raw).2 =
        target_from_light (record_light_reading s.light_readings raw).2) ∧
    (∀ (s : BState) (raw : ℚ), s.mode = Mode.manual →
      (get_target_brightness s raw).2 = max 0 (min 1 ((s.level : ℚ) / 100))) := by
  refine ⟨fun v h => target_from_light_low h,
          fun v h => target_from_light_high h,
          fun v w h1 h12 h2 => ?_, fun v => ⟨le_max_left 0 _, ?_⟩, ?_, ?_⟩
  · rw [target_from_light_mid h1 (lt_of_le_of_lt h12 h2),
        target_from_light_mid (lt_of_lt_of_le h1 h12) h2]
    rw [MIN_LIGHT, MAX_LIGHT, MIN_BRIGHTNESS, MAX_BRIGHTNESS]
    nlinarith
  · rw [target_from_light]
    exact max_le (by norm_num) (min_le_left 1 _)
  · rintro ⟨mo, lv, cur, lr, st, pt, ps, gb⟩ raw h
    cases h
    rfl
  · rintro ⟨mo, lv, cur, lr, st, pt, ps, gb⟩ raw h
    cases h
    rfl

/-- Witness for C2 at concrete inputs. -/
theorem C2_target_brightness_witness :
    target_from_light 10 = MIN_BRIGHTNESS ∧
    target_from_light 30 = MAX_BRIGHTNESS ∧
    target_from_light 16 ≤ target_from_light 17 ∧
    (0 ≤ target_from_light 16 ∧ target_from_light 16 ≤ 1) ∧
    (get_target_brightness ⟨Mode.auto, 50, 1/2, [], 6/100, none, none, 1/2⟩ 10).2 =
      target_from_light (record_light_reading [] 10).2 ∧
    (get_target_brightness ⟨Mode.manual, 50, 1/2, [], 1/2, none, none, 1/2⟩ 0).2 =
      max 0 (min 1 ((50 : ℚ) / 100)) := by
  refine ⟨C2_target_brightness.1 10 (by norm_num [MIN_LIGHT]),
          C2_target_brightness.2.1 30 (by norm_num [MAX_LIGHT]),
          C2_target_brightness.2.2.1 16 17 (by norm_num [MIN_LIGHT]) (by norm_num)
            (by norm_num [MAX_LIGHT]),
          C2_target_brightness.2.2.2.1 16,
          C2_target_brightness.2.2.2.2.1 _ 10 rfl,
          C2_target_brightness.2.2.2.2.2 _ 0 rfl⟩

/-! ## Claims C6, C8, C10: manual level adjustment and mutation ranges -/

/-- A Brightness state in manual mode with level 50 and
current_brightness 0.50. -/
def manual_state_50 : BState :=
  ⟨Mode.manual, 50, 1/2, [], 1/2, none, none, 1/2⟩

/-- A Brightness state in auto mode. -/
def auto_state : BState :=
  ⟨Mode.auto, 50, 1/2, [17, 18], 6/100, none, none, 1/2⟩

/-- Counterexample to claim C6: in manual mode adjust sets
current_brightness to the corrected level immediately, so a single
adjust(+5) from level 50 jumps 0.50 → 0.55 in one call (skipping 0.52),
and two adjust(+5) calls land on level 60 and brightness 0.60, not 0.55. -/
theorem adjust_manual_50_once :
    adjust manual_state_50 5 = ⟨Mode.manual, 55, 11/20, [], 1/2, none, none, 11/20⟩ := by
  norm_num [adjust, manual_state_50, get_corrected_level, min_def, max_def]

theorem adjust_manual_50_twice :
    adjust (adjust manual_state_50 5) 5 =
      ⟨Mode.manual, 60, 3/5, [], 1/2, none, none, 3/5⟩ := by
  rw [adjust_manual_50_once]
  norm_num [adjust, get_corrected_level, min_def, max_def]

theorem C6_counterexample :
    (adjust manual_state_50 5).current_brightness = 11/20 ∧
    (adjust (adjust manual_state_50 5) 5).current_brightness = 3/5 ∧
    ((3 : ℚ)/5 ≠ 11/20) ∧
    ((11 : ℚ)/20 ≠ 13/25) := by
  rw [adjust_manual_50_twice, adjust_manual_50_once]
  refine ⟨rfl, rfl, by norm_num, by norm_num⟩

/-- Claim C6 (amended): in manual mode with level 50 and
current_brightness 0.50, each adjust(+5) call sets the level and jumps
current_brightness directly to level/100 (0.50 → 0.55 → 0.60) with no
intermediate 0.02 steps; two calls land on level 60 and brightness 0.60,
and subsequent update calls leave current_brightness at 0.60. -/
theorem C6_manual_adjust_amended (raw : ℚ) (now : ℤ) :
    (adjust manual_state_50 5).level = 55 ∧
    (adjust manual_state_50 5).current_brightness = 11/20 ∧
    (adjust (adjust manual_state_50 5) 5).level = 60 ∧
    (adjust (adjust manual_state_50 5) 5).current_brightness = 3/5 ∧
    (update (adjust (adjust manual_state_50 5) 5) raw now).current_brightness = 3/5 := by
  rw [adjust_manual_50_twice, adjust_manual_50_once]
  refine ⟨rfl, rfl, rfl, rfl, ?_⟩
  norm_num [update, get_target_brightness, get_corrected_level, advance, min_def, max_def]

/-- Counterexample to claim C8: set_level performs no clamping, so an
out-of-range input is stored as-is. -/
theorem C8_counterexample :
    (set_level manual_state_50 150).level = 150 ∧ ¬ (150 : ℤ) ≤ 100 :=
  ⟨rfl, by norm_num⟩

/-- Claim C8 (amended): adjust either leaves the state unchanged (auto
mode) or clamps the updated level into [0, 100] for every prior level
and adjustment; set_level stores its argument verbatim (its 0–100 range
is only a documented caller precondition); every mode switch lands in
{0, 1, 2, 3} and every effect switch in {0, ..., effects_count - 1}. -/
theorem C8_mutation_ranges_amended :
    (∀ (s : BState) (v : ℤ), adjust s v = s ∨
      (0 ≤ (adjust s v).level ∧ (adjust s v).level ≤ 100)) ∧
    (∀ (s : BState) (l : ℤ), (set_level s l).level = l) ∧
    (∀ m : ℤ, 0 ≤ switch_mode m ∧ switch_mode m < 4) ∧
    (∀ e : ℤ, 0 ≤ switch_effect e ∧ switch_effect e < effects_count) := by
  refine ⟨fun s v => ?_, fun s l => rfl, fun m => ?_, fun e => ?_⟩
  · rcases s with ⟨mo, lv, cur, lr, st, pt, ps, gb⟩
    cases mo with
    | auto => exact Or.inl rfl
    | manual =>
      refine Or.inr ⟨le_max_left 0 _, ?_⟩
      show max 0 (min 100 (lv + v)) ≤ 100
      exact max_le (by norm_num) (min_le_left 100 _)
  · exact ⟨Int.emod_nonneg _ (by norm_num), Int.emod_lt_of_pos _ (by norm_num)⟩
  · rw [switch_effect, effects_count]
    exact ⟨Int.emod_nonneg _ (by norm_num), Int.emod_lt_of_pos _ (by norm_num)⟩

/-- Claim C10: Brightness.adjust returns early in auto mode, leaving the
level, current_brightness, stable_target and the actuator value (the
whole state) unchanged. -/
theorem C10_adjust_auto_noop (s : BState) (v : ℤ) (h : s.mode = Mode.auto) :
    adjust s v = s := by
  rcases s with ⟨mo, lv, cur, lr, st, pt, ps, gb⟩
  cases h
  rfl

/-- Witness for C10 at a concrete auto-mode state. -/
theorem C10_adjust_auto_noop_witness :
    adjust auto_state (-5) = auto_state :=
  C10_adjust_auto_noop auto_state (-5) rfl

/-! ## Claim C9: settings restore -/

/-- Counterexample to claim C9: a settings file whose content is valid
JSON but not an object (here the JSON array []) passes the except
(OSError, ValueError) filter and then raises AttributeError at
d.get(...), i.e. the restore path does raise out of startup. -/
theorem C9_counterexample :
    restore_settings (ReadResult.parsed (JVal.arr [])) = Except.error () := rfl

/-- Claim C9 (amended): an absent/unreadable file (OSError) or malformed
JSON (ValueError) yields the defaults mode 0, effect 0, am_pm_mode
false; a parsed JSON object yields each field when present and the
per-field default when missing; but content that parses to a non-object
JSON value raises (AttributeError) out of the startup path. -/
theorem C9_restore_amended :
    restore_settings ReadResult.os_error =
      Except.ok ⟨JVal.num 0, JVal.num 0, JVal.bool false⟩ ∧
    restore_settings ReadResult.malformed_json =
      Except.ok ⟨JVal.num 0, JVal.num 0, JVal.bool false⟩ ∧
    restore_settings (ReadResult.parsed (JVal.obj [])) =
      Except.ok ⟨JVal.num 0, JVal.num 0, JVal.bool false⟩ ∧
    (∀ v : JVal, restore_settings (ReadResult.parsed (JVal.obj [("effect", v)])) =
      Except.ok ⟨JVal.num 0, v, JVal.bool false⟩) ∧
    (∀ mv ev av : JVal,
      restore_settings (ReadResult.parsed (JVal.obj
        [("mode", mv), ("effect", ev), ("am_pm_mode", av)])) =
      Except.ok ⟨mv, ev, av⟩) ∧
    (∀ items : List JVal,
      restore_settings (ReadResult.parsed (JVal.arr items)) = Except.error ()) ∧
    (∀ n : ℤ, restore_settings (ReadResult.parsed (JVal.num n)) = Except.error ()) ∧
    (∀ t : String, restore_settings (ReadResult.parsed (JVal.str t)) = Except.error ()) ∧
    (∀ b : Bool, restore_settings (ReadResult.parsed (JVal.bool b)) = Except.error ()) ∧
    restore_settings (ReadResult.parsed JVal.null) = Except.error () := by
  refine ⟨rfl, rfl, rfl, fun v => rfl, fun mv ev av => rfl,
          fun items => rfl, fun n => rfl, fun t => rfl, fun b => rfl, rfl⟩

/-! ## Claim C3: rolling light average -/

theorem record_buffer_foldl (xs : List ℚ) :
    List.foldl record_buffer [] xs = xs.drop (xs.length - LIGHT_SAMPLES) := by
  induction xs using List.reverseRecOn with
  | nil => rfl
  | append_singleton ys y ih =>
    rw [List.foldl_append, List.foldl_cons, List.foldl_nil, ih]
    simp only [record_buffer, LIGHT_SAMPLES, List.length_append, List.length_drop,
      List.length_singleton]
    rcases le_or_lt ys.length 4 with h | h
    · have h0 : ys.length - 5 = 0 := by omega
      have h1 : ys.length + 1 - 5 = 0 := by omega
      rw [h0, h1, List.drop_zero, List.drop_zero, if_neg (by omega)]
    · have h5 : ys.length - (ys.length - 5) = 5 := by omega
      rw [h5, if_pos (by omega)]
      rw [List.drop_append_of_le_length (by rw [List.length_drop]; omega),
          List.drop_drop, List.drop_append_of_le_length (by omega)]
      have h6 : ys.length - 5 + 1 = ys.length + 1 - 5 := by omega
      rw [h6]

/-- Claim C3: feeding any sequence of raw readings through
record_light_reading leaves the buffer equal to the last
min(LIGHT_SAMPLES, count) readings in recording order (FIFO eviction of
the oldest, capacity 5), the buffer is nonempty after the first reading
(so the mean never divides by zero), and the value returned by the last
call is the arithmetic mean of those readings. -/
theorem C3_rolling_average (xs : List ℚ) (h : xs ≠ []) :
    List.foldl record_buffer [] xs = xs.drop (xs.length - LIGHT_SAMPLES) ∧
    (List.foldl record_buffer [] xs).length = min LIGHT_SAMPLES xs.length ∧
    0 < (List.foldl record_buffer [] xs).length ∧
    (record_light_reading (List.foldl record_buffer [] xs.dropLast) (xs.getLast h)).2 =
      (xs.drop (xs.length - LIGHT_SAMPLES)).sum /
        ((min LIGHT_SAMPLES xs.length : Nat) : ℚ) := by
  have h1 := record_buffer_foldl xs
  have hlen : (List.foldl record_buffer [] xs).length = min LIGHT_SAMPLES xs.length := by
    rw [h1, List.length_drop]
    simp only [LIGHT_SAMPLES]
    omega
  have hpos : 0 < (List.foldl record_buffer [] xs).length := by
    rw [hlen]
    have hx := List.length_pos.mpr h
    simp only [LIGHT_SAMPLES]
    omega
  refine ⟨h1, hlen, hpos, ?_⟩
  have hfold : record_buffer (List.foldl record_buffer [] xs.dropLast) (xs.getLast h) =
      List.foldl record_buffer [] xs := by
    conv_rhs => rw [← List.dropLast_concat_getLast h]
    rw [List.foldl_append, List.foldl_cons, List.foldl_nil]
  simp only [record_light_reading]
  rw [hfold, hlen, h1]

/-- Sample reading sequence for the C3 witness. -/
def sample_readings : List ℚ := [1, 2, 3, 4, 5, 6]

theorem sample_readings_ne_nil : sample_readings ≠ [] := by
  simp [sample_readings]

/-- Witness for C3 on the concrete sequence [1, 2, 3, 4, 5, 6]. -/
theorem C3_rolling_average_witness :
    List.foldl record_buffer [] sample_readings =
      sample_readings.drop (sample_readings.length - LIGHT_SAMPLES) ∧
    (List.foldl record_buffer [] sample_readings).length =
      min LIGHT_SAMPLES sample_readings.length ∧
    0 < (List.foldl record_buffer [] sample_readings).length ∧
    (record_light_reading (List.foldl record_buffer [] sample_readings.dropLast)
        (sample_readings.getLast sample_readings_ne_nil)).2 =
      (sample_readings.drop (sample_readings.length - LIGHT_SAMPLES)).sum /
        ((min LIGHT_SAMPLES sample_readings.length : Nat) : ℚ) :=
  C3_rolling_average sample_readings sample_readings_ne_nil

/-! ## Claim C4: smoothing ramp -/

theorem advance_abs_le (c t : ℚ) : |advance c t - c| ≤ 2/100 := by
  rw [advance]
  split_ifs with h
  · have h1 : c ≤ min t (c + 2/100) := le_min (le_of_lt h) (by linarith)
    have h2 := min_le_right t (c + 2/100)
    rw [abs_le]
    constructor <;> linarith
  · have h1 : max t (c - 2/100) ≤ c := max_le (le_of_not_lt h) (by linarith)
    have h2 := le_max_right t (c - 2/100)
    rw [abs_le]
    constructor <;> linarith

theorem advance_exact (c t : ℚ) (h : |c - t| ≤ 2/100) : advance c t = t := by
  rw [abs_le] at h
  rw [advance]
  split_ifs with hlt
  · exact min_eq_left (by linarith)
  · exact max_eq_left (by linarith)

theorem advance_no_overshoot_up (c t : ℚ) (h : c ≤ t) :
    c ≤ advance c t ∧ advance c t ≤ t := by
  rw [advance]
  split_ifs with hlt
  · exact ⟨le_min h (by linarith), min_le_left t _⟩
  · have hct : c = t := le_antisymm h (le_of_not_lt hlt)
    constructor
    · rw [hct]
      exact le_max_left t _
    · exact max_le le_rfl (by linarith)

theorem advance_no_overshoot_down (c t : ℚ) (h : t ≤ c) :
    t ≤ advance c t ∧ advance c t ≤ c := by
  rw [advance]
  split_ifs with hlt
  · exact absurd hlt (not_lt.mpr h)
  · exact ⟨le_max_left t _, max_le h (by linarith)⟩

theorem advance_dist (c t : ℚ) : |t - advance c t| ≤ max 0 (|t - c| - 2/100) := by
  rw [advance]
  split_ifs with hlt
  · rcases le_or_lt t (c + 2/100) with h1 | h1
    · rw [min_eq_left h1]
      simp
    · rw [min_eq_right (le_of_lt h1), abs_of_nonneg (by linarith),
          abs_of_nonneg (by linarith)]
      exact le_max_of_le_right (by linarith)
  · rcases le_or_lt (c - 2/100) t with h1 | h1
    · rw [max_eq_left h1]
      simp
    · rw [max_eq_right (le_of_lt h1), abs_of_nonpos (by linarith),
          abs_of_nonpos (by linarith)]
      exact le_max_of_le_right (by linarith)

theorem advance_iter_dist (t c : ℚ) (n : Nat) :
    |t - (fun x => advance x t)^[n] c| ≤ max 0 (|t - c| - n * (2/100)) := by
  induction n with
  | zero => simp
  | succ n ih =>
    rw [Function.iterate_succ_apply']
    refine le_trans (advance_dist _ t) (max_le (le_max_left 0 _) ?_)
    have hstep : |t - (fun x => advance x t)^[n] c| - 2/100 ≤
        max 0 (|t - c| - n * (2/100)) - 2/100 := by linarith
    refine le_trans hstep ?_
    rcases le_or_lt 0 (|t - c| - n * (2/100)) with h1 | h1
    · rw [max_eq_right h1]
      push_cast
      exact le_max_of_le_right (by linarith)
    · rw [max_eq_left (le_of_lt h1)]
      exact le_max_of_le_left (by linarith)

theorem advance_iter_eq (c t : ℚ) (n : Nat) (hn : |t - c| * 50 ≤ (n : ℚ)) :
    (fun x => advance x t)^[n] c = t := by
  have hd := advance_iter_dist t c n
  have hz : |t - (fun x => advance x t)^[n] c| ≤ 0 := by
    refine le_trans hd (max_le le_rfl (by linarith))
  have h0 : |t - (fun x => advance x t)^[n] c| = 0 := le_antisymm hz (abs_nonneg _)
  have h1 := abs_eq_zero.mp h0
  linarith [h1]

/-- Claim C4: one Brightness.update call changes current_brightness by at
most 0.02; the ramp never overshoots (a current within 0.02 of the
target lands exactly on the target, and the new value always stays
between the old current and the target); iterating the ramp toward a
fixed target t reaches t in exactly ceil(dist / 0.02) calls. -/
theorem C4_smoothing_ramp :
    (∀ (s : BState) (raw : ℚ) (now : ℤ),
      |(update s raw now).current_brightness - s.current_brightness| ≤ 2/100) ∧
    (∀ c t : ℚ, |c - t| ≤ 2/100 → advance c t = t) ∧
    (∀ c t : ℚ, c ≤ t → c ≤ advance c t ∧ advance c t ≤ t) ∧
    (∀ c t : ℚ, t ≤ c → t ≤ advance c t ∧ advance c t ≤ c) ∧
    (∀ c t : ℚ, (fun x => advance x t)^[(⌈|t - c| / (2/100 : ℚ)⌉).toNat] c = t) := by
  refine ⟨?_, advance_exact, advance_no_overshoot_up, advance_no_overshoot_down, ?_⟩
  · rintro ⟨mo, lv, cur, lr, st, pt, ps, gb⟩ raw now
    cases mo with
    | auto =>
      simp only [update, get_target_brightness]
      exact advance_abs_le _ _
    | manual =>
      simp only [update, get_target_brightness]
      exact advance_abs_le _ _
  · intro c t
    refine advance_iter_eq c t _ ?_
    have he : |t - c| / (2/100 : ℚ) = |t - c| * 50 := by ring
    have hnn : (0 : ℚ) ≤ |t - c| * 50 := by positivity
    have hceil : |t - c| * 50 ≤ (⌈|t - c| * 50⌉ : ℚ) := Int.le_ceil _
    have hpos : (0 : ℤ) ≤ ⌈|t - c| * 50⌉ := Int.ceil_nonneg hnn
    rw [he]
    calc |t - c| * 50 ≤ (⌈|t - c| * 50⌉ : ℚ) := hceil
    _ = ((⌈|t - c| * 50⌉.toNat : ℤ) : ℚ) := by rw [Int.toNat_of_nonneg hpos]
    _ = ((⌈|t - c| * 50⌉.toNat : ℕ) : ℚ) := by push_cast; rfl

/-- Witness for C4 at concrete states and values. -/
theorem C4_smoothing_ramp_witness :
    |(update auto_state 17 5).current_brightness - auto_state.current_brightness| ≤ 2/100 ∧
    advance (1/2) (51/100) = 51/100 ∧
    ((1/2 : ℚ) ≤ advance (1/2) (9/10) ∧ advance (1/2) (9/10) ≤ 9/10) ∧
    ((1/10 : ℚ) ≤ advance (1/2) (1/10) ∧ advance (1/2) (1/10) ≤ 1/2) ∧
    (fun x => advance x (3/5))^[(⌈|(3/5 : ℚ) - 1/2| / (2/100 : ℚ)⌉).toNat] (1/2) = 3/5 :=
  ⟨C4_smoothing_ramp.1 auto_state 17 5,
   C4_smoothing_ramp.2.1 (1/2) (51/100) (by norm_num [abs_le]),
   C4_smoothing_ramp.2.2.1 (1/2) (9/10) (by norm_num),
   C4_smoothing_ramp.2.2.2.1 (1/2) (1/10) (by norm_num),
   C4_smoothing_ramp.2.2.2.2 (1/2) (3/5)⟩

/-! ## Claim C7: startup rendering of restored settings -/

/-- Counterexample to claim C7: with restored settings mode 1, effect 2,
am_pm false, startup produces no renderer at all — the very first
statement of example() passes the keyword offset=20 to Brightness, whose
__init__ declares no such parameter, so TypeError is raised before any
load_example call and no renderer start reflecting (or not reflecting)
the restored mode and effect ever happens. -/
theorem C7_counterexample :
    example_startup 1 2 false = Except.error () ∧
    brightness_bind_kwargs example_brightness_kwargs = Except.error () :=
  ⟨rfl, rfl⟩

/-- Claim C7 (amended): example() raises TypeError at its first
statement — Brightness(galactic, offset=20) passes an offset keyword
that Brightness.__init__ (parameters galactic, level, mode) does not
accept — so for every restored (mode, effect, am_pm_mode) the startup
path errors out before wlan_connection, before either task is created
and before any load_example call: no renderer is ever started and the
restored settings are never rendered. -/
theorem C7_startup_amended (m e : ℤ) (a : Bool) :
    example_startup m e a = Except.error () := rfl

/-! ## Claim C5: persistence timer in the input/mode loop -/

theorem loop_tick_no_change_none (s : LoopState) (i : Intent) (t : ℤ)
    (h1 : i = s.applied) (h2 : s.last_change_time = none) : loop_tick s i t = s := by
  rcases s with ⟨app, olc, w⟩
  simp only [LoopState.applied] at h1
  simp only [LoopState.last_change_time] at h2
  subst h1
  subst h2
  simp [loop_tick]

theorem loop_tick_no_change_pending (s : LoopState) (i : Intent) (t lc : ℤ)
    (h1 : i = s.applied) (h2 : s.last_change_time = some lc)
    (hc : ¬ (lc ≠ 0 ∧ lc + 5 < t)) : loop_tick s i t = s := by
  rcases s with ⟨app, olc, w⟩
  simp only [LoopState.applied] at h1
  simp only [LoopState.last_change_time] at h2
  subst h1
  subst h2
  simp [loop_tick, hc]

theorem loop_tick_no_change_write (s : LoopState) (i : Intent) (t lc : ℤ)
    (h1 : i = s.applied) (h2 : s.last_change_time = some lc)
    (hc : lc ≠ 0 ∧ lc + 5 < t) :
    loop_tick s i t =
      { applied := s.applied, last_change_time := none,
        writes := s.writes ++ [(t, s.applied)] } := by
  rcases s with ⟨app, olc, w⟩
  simp only [LoopState.applied] at h1
  simp only [LoopState.last_change_time] at h2
  subst h1
  subst h2
  simp [loop_tick, hc]

theorem loop_tick_change (s : LoopState) (i : Intent) (t : ℤ) (h : i ≠ s.applied) :
    loop_tick s i t =
      { applied := i, last_change_time := some t, writes := s.writes } := by
  rcases s with ⟨app, olc, w⟩
  have hc : ¬ (t ≠ 0 ∧ t + 5 < t) := by
    rintro ⟨-, h5⟩
    omega
  simp [loop_tick, h, hc]

theorem run_loop_cons (s : LoopState) (p : Intent × ℤ) (ticks : List (Intent × ℤ)) :
    run_loop s (p :: ticks) = run_loop (loop_tick s p.1 p.2) ticks := rfl

theorem run_loop_stable_none (s : LoopState) (ticks : List (Intent × ℤ))
    (h2 : s.last_change_time = none) (hall : ∀ p ∈ ticks, p.1 = s.applied) :
    run_loop s ticks = s := by
  revert hall
  induction ticks with
  | nil => intro _; rfl
  | cons p rest ih =>
    intro hall
    have hp : p.1 = s.applied := hall p (List.mem_cons_self p rest)
    have hrest : ∀ q ∈ rest, q.1 = s.applied := fun q hq => hall q (List.mem_cons_of_mem p hq)
    rw [run_loop_cons, loop_tick_no_change_none s p.1 p.2 hp h2]
    exact ih hrest

theorem run_loop_stable_writes (ticks : List (Intent × ℤ)) :
    ∀ (s : LoopState) (lc : ℤ), s.last_change_time = some lc → lc ≠ 0 →
      (∀ p ∈ ticks, p.1 = s.applied) →
      (run_loop s ticks).writes = s.writes ++
        (match ticks.find? (fun q => decide (lc + 5 < q.2)) with
         | some q => [(q.2, s.applied)]
         | none => []) := by
  induction ticks with
  | nil =>
    intro s lc h1 h2 hall
    simp [run_loop, List.find?]
  | cons p rest ih =>
    intro s lc h1 h2 hall
    have hp : p.1 = s.applied := hall p (List.mem_cons_self p rest)
    have hrest : ∀ q ∈ rest, q.1 = s.applied := fun q hq => hall q (List.mem_cons_of_mem p hq)
    rcases le_or_lt p.2 (lc + 5) with hle | hgt
    · have hcond : ¬ (lc ≠ 0 ∧ lc + 5 < p.2) := by
        rintro ⟨-, h5⟩
        omega

      rw [run_loop_cons, loop_tick_no_change_pending s p.1 p.2 lc hp h1 hcond,
          ih s lc h1 h2 hrest,
          List.find?_cons_of_neg rest (by simp; omega)]
    · have hcond : lc ≠ 0 ∧ lc + 5 < p.2 := ⟨h2, hgt⟩
      rw [run_loop_cons, loop_tick_no_change_write s p.1 p.2 lc hp h1 hcond]
      rw [run_loop_stable_none _ rest rfl (by intro q hq; exact hrest q hq),
          List.find?_cons_of_pos rest (by simp [hgt])]

/-- Initial intent and the three changed intents of the C5 scenario. -/
def i0 : Intent := ⟨0, 0, false⟩

def i1 : Intent := ⟨1, 0, false⟩

def i2 : Intent := ⟨2, 0, false⟩

def i3 : Intent := ⟨3, 0, false⟩

/-- Loop state right after the initial load: applied equals the intent,
no pending change, nothing written. -/
def loop_s0 : LoopState := ⟨i0, none, []⟩

/-- One poll per second; the intent changes are observed at t = 0, 2, 6
and nothing changes afterwards (the claimed scenario), polled through
t = 11. -/
def scenario_ticks_to_11 : List (Intent × ℤ) :=
  [(i1, 0), (i1, 1), (i2, 2), (i2, 3), (i2, 4), (i2, 5),
   (i3, 6), (i3, 7), (i3, 8), (i3, 9), (i3, 10), (i3, 11)]

/-- The same scenario polled one second further, through t = 12. -/
def scenario_ticks_to_12 : List (Intent × ℤ) :=
  scenario_ticks_to_11 ++ [(i3, 12)]

/-- Counterexample to claim C5: for intent changes observed at t = 0, 2
and 6 with one poll per second, no settings write has happened by t = 11
(the write guard is strict: last_change_time + 5 < now), and the single
write lands at the t = 12 poll, not at t = 11. -/
theorem C5_counterexample :
    (run_loop loop_s0 scenario_ticks_to_11).writes = [] ∧
    (run_loop loop_s0 scenario_ticks_to_12).writes = [(12, i3)] ∧
    (12 : ℤ) ≠ 11 :=
  ⟨rfl, rfl, by norm_num⟩

/-- Claim C5 (amended): every observed intent change restarts the
persistence timer at the current time without writing on that tick; once
the intent stays stable, exactly one write of the current record occurs,
at the first poll strictly later than last_change + 5 seconds (none if no
such poll comes, and a change recorded at clock value 0 never arms the
timer); in the t = 0 / 2 / 6 scenario with one poll per second the single
write happens at t = 12, not at t = 5 or t = 11. -/
theorem C5_persistence_amended :
    (∀ (s : LoopState) (i : Intent) (t : ℤ), i ≠ s.applied →
      loop_tick s i t = { applied := i, last_change_time := some t, writes := s.writes }) ∧
    (∀ (ticks : List (Intent × ℤ)) (s : LoopState) (lc : ℤ),
      s.last_change_time = some lc → lc ≠ 0 →
      (∀ p ∈ ticks, p.1 = s.applied) →
      (run_loop s ticks).writes = s.writes ++
        (match ticks.find? (fun q => decide (lc + 5 < q.2)) with
         | some q => [(q.2, s.applied)]
         | none => [])) ∧
    (run_loop loop_s0 scenario_ticks_to_12).writes = [(12, i3)] :=
  ⟨loop_tick_change, fun ticks => run_loop_stable_writes ticks, rfl⟩

/-- Stable-intent loop state used by the C5 witness. -/
def stable_loop_state : LoopState := ⟨i3, some 6, []⟩

/-- Polls for the C5 witness: all intents equal the applied one. -/
def stable_ticks : List (Intent × ℤ) := [(i3, 7), (i3, 12), (i3, 13)]

/-- Witness for C5 (amended) at concrete loop states and polls. -/
theorem C5_persistence_amended_witness :
    loop_tick loop_s0 i1 0 =
      { applied := i1, last_change_time := some 0, writes := loop_s0.writes } ∧
    (run_loop stable_loop_state stable_ticks).writes = stable_loop_state.writes ++
      (match stable_ticks.find? (fun q => decide ((6 : ℤ) + 5 < q.2)) with
       | some q => [(q.2, stable_loop_state.applied)]
       | none => []) :=
  ⟨C5_persistence_amended.1 loop_s0 i1 0 (by decide),
   C5_persistence_amended.2.1 stable_ticks stable_loop_state 6 rfl (by decide) (by decide)⟩

/-! ## Claim C1: dwell-based hysteresis of the stable target -/

theorem cand_at_eq (tr : List (ℚ × ℤ)) (i : Nat) (hi : i < tr.length) :
    cand_at tr i = (tr.get ⟨i, hi⟩).1 := by
  have h1 : tr.getD i (0, 0) = (tr.get? i).getD (0, 0) := rfl
  rw [cand_at, h1, List.get?_eq_get hi]
  rfl

theorem time_at_eq (tr : List (ℚ × ℤ)) (i : Nat) (hi : i < tr.length) :
    time_at tr i = (tr.get ⟨i, hi⟩).2 := by
  have h1 : tr.getD i (0, 0) = (tr.get? i).getD (0, 0) := rfl
  rw [time_at, h1, List.get?_eq_get hi]
  rfl

theorem h_after_zero (h0 : HState) (tr : List (ℚ × ℤ)) :
    h_after h0 tr 0 = h0 := rfl

theorem h_after_succ (h0 : HState) (tr : List (ℚ × ℤ)) (i : Nat)
    (hi : i < tr.length) :
    h_after h0 tr (i + 1) =
      hysteresis_step (h_after h0 tr i) (cand_at tr i) (time_at tr i) := by
  have hg : tr[i]? = some tr[i] := List.getElem?_eq_getElem hi
  simp only [h_after, run_h]
  rw [List.take_succ, hg, List.foldl_append]
  rw [cand_at_eq tr i hi, time_at_eq tr i hi]
  rfl

/-- Exhaustive description of one hysteresis step: the candidate is close
to the stable target (pending cleared), a fresh/replaced pending is
recorded at the current time, the pending target is promoted after the
dwell, or nothing changes. -/
theorem hysteresis_step_cases (s : HState) (c : ℚ) (t : ℤ) :
    (is_target_close c s.stable_target ∧
      hysteresis_step s c t =
        { s with pending_target := none, pending_since := none }) ∨
    (¬ is_target_close c s.stable_target ∧
      (s.pending_target = none ∨
        ∃ pd, s.pending_target = some pd ∧ ¬ is_target_close c pd) ∧
      hysteresis_step s c t =
        { s with pending_target := some c, pending_since := some t }) ∨
    (∃ pd psv, ¬ is_target_close c s.stable_target ∧
      s.pending_target = some pd ∧ is_target_close c pd ∧
      s.pending_since = some psv ∧ psv ≠ 0 ∧
      TARGET_CHANGE_DELAY_MS ≤ ticks_diff t psv ∧
      hysteresis_step s c t = ⟨pd, none, none⟩) ∨
    (∃ pd, ¬ is_target_close c s.stable_target ∧
      s.pending_target = some pd ∧ is_target_close c pd ∧
      (∀ psv, s.pending_since = some psv →
        ¬ (psv ≠ 0 ∧ TARGET_CHANGE_DELAY_MS ≤ ticks_diff t psv)) ∧
      hysteresis_step s c t = s) := by
  rcases s with ⟨st, pt, ps⟩
  by_cases h1 : is_target_close c st
  · left
    exact ⟨h1, by simp [hysteresis_step, h1]⟩
  · cases pt with
    | none =>
      right; left
      exact ⟨h1, Or.inl rfl, by simp [hysteresis_step, h1]⟩
    | some pd =>
      by_cases h2 : is_target_close c pd
      · cases ps with
        | none =>
          right; right; right
          refine ⟨pd, h1, rfl, h2, ?_, by simp [hysteresis_step, h1, h2]⟩
          intro psv hps
          exact Option.noConfusion hps
        | some psv =>
          by_cases h3 : psv ≠ 0 ∧ TARGET_CHANGE_DELAY_MS ≤ ticks_diff t psv
          · right; right; left
            exact ⟨pd, psv, h1, rfl, h2, rfl, h3.1, h3.2,
              by simp only [hysteresis_step, if_neg h1, if_neg (not_not_intro h2), if_pos h3]⟩
          · right; right; right
            refine ⟨pd, h1, rfl, h2, ?_,
              by simp only [hysteresis_step, if_neg h1, if_neg (not_not_intro h2), if_neg h3]⟩
            intro qsv hps
            injection hps with hq
            rw [← hq]
            exact h3
      · right; left
        exact ⟨h1, Or.inr ⟨pd, rfl, h2⟩, by simp [hysteresis_step, h1, h2]⟩

/-- While a pending target is set, it was recorded verbatim at some
earlier step j (with pending_since equal to that step's time) and every
step since then proposed a candidate within TARGET_EPSILON of it. -/
theorem hysteresis_pending_invariant (h0 : HState) (tr : List (ℚ × ℤ))
    (hp : h0.pending_target = none) (i : Nat) :
    i ≤ tr.length → ∀ p : ℚ, (h_after h0 tr i).pending_target = some p →
      ∃ j, j < i ∧ cand_at tr j = p ∧
        (h_after h0 tr i).pending_since = some (time_at tr j) ∧
        ∀ k, j ≤ k → k < i → |cand_at tr k - p| < TARGET_EPSILON := by
  induction i with
  | zero =>
    intro _ p hp2
    rw [h_after_zero, hp] at hp2
    exact Option.noConfusion hp2
  | succ i ih =>
    intro hi p hp2
    have hi' : i < tr.length := by omega
    have hsucc := h_after_succ h0 tr i hi'
    rw [hsucc] at hp2
    rcases hysteresis_step_cases (h_after h0 tr i) (cand_at tr i) (time_at tr i) with
      ⟨hc, heq⟩ | ⟨hc, hpt, heq⟩ |
      ⟨pd, psv, hc, hpt, hcl, hps, hnz, hdw, heq⟩ | ⟨pd, hc, hpt, hcl, hnp, heq⟩
    · rw [heq] at hp2
      exact Option.noConfusion hp2
    · rw [heq] at hp2
      injection hp2 with hpc
      refine ⟨i, by omega, hpc, ?_, ?_⟩
      · rw [hsucc, heq]
      · intro k hk1 hk2
        have hk : k = i := by omega
        rw [hk, hpc, sub_self, abs_zero]
        norm_num [TARGET_EPSILON]
    · rw [heq] at hp2
      exact Option.noConfusion hp2
    · rw [heq] at hp2
      obtain ⟨j, hj, hcj, hsince, hall⟩ := ih (by omega) p hp2
      refine ⟨j, by omega, hcj, ?_, ?_⟩
      · rw [hsucc, heq]
        exact hsince
      · intro k hk1 hk2
        rcases Nat.lt_or_ge k i with hk | hk
        · exact hall k hk1 hk
        · have hki : k = i := by omega
          have hpd : pd = p := by
            rw [hpt] at hp2
            injection hp2
          rw [hki]
          rw [← hpd]
          exact hcl

/-- Claim C1: in auto mode the stable target never changes at a step
unless a pending candidate was recorded verbatim at some earlier step j,
every step from j through the current one proposed a candidate within
TARGET_EPSILON of it, and at least TARGET_CHANGE_DELAY_MS elapsed since
step j; a candidate that fluctuates by ≥ TARGET_EPSILON before the dwell
completes therefore never becomes the stable target.  In manual mode
Brightness.update sets stable_target to the candidate (the corrected
manual level) immediately and clears both pending fields. -/
theorem C1_stable_target_dwell :
    (∀ (h0 : HState) (tr : List (ℚ × ℤ)) (i : Nat),
      h0.pending_target = none → i < tr.length →
      (h_after h0 tr (i + 1)).stable_target ≠ (h_after h0 tr i).stable_target →
      ∃ j, j < i ∧
        TARGET_CHANGE_DELAY_MS ≤ time_at tr i - time_at tr j ∧
        (∀ k, j ≤ k → k ≤ i → |cand_at tr k - cand_at tr j| < TARGET_EPSILON) ∧
        (h_after h0 tr i).pending_target = some (cand_at tr j) ∧
        (h_after h0 tr i).pending_since = some (time_at tr j) ∧
        (h_after h0 tr (i + 1)).stable_target = cand_at tr j) ∧
    (∀ (s : BState) (raw : ℚ) (now : ℤ), s.mode = Mode.manual →
      (update s raw now).stable_target = get_corrected_level s.level ∧
      (update s raw now).pending_target = none ∧
      (update s raw now).pending_since = none) := by
  constructor
  · intro h0 tr i hp hi hchange
    have hsucc := h_after_succ h0 tr i hi
    rcases hysteresis_step_cases (h_after h0 tr i) (cand_at tr i) (time_at tr i) with
      ⟨hc, heq⟩ | ⟨hc, hpt, heq⟩ |
      ⟨pd, psv, hc, hpt, hcl, hps, hnz, hdw, heq⟩ | ⟨pd, hc, hpt, hcl, hnp, heq⟩
    · exact absurd (by rw [hsucc, heq]) hchange
    · exact absurd (by rw [hsucc, heq]) hchange
    · obtain ⟨j, hj, hcj, hsince, hall⟩ :=
        hysteresis_pending_invariant h0 tr hp i (by omega) pd hpt
      have htj : psv = time_at tr j := by
        rw [hsince] at hps
        injection hps with h
        exact h.symm
      refine ⟨j, hj, ?_, ?_, ?_, hsince, ?_⟩
      · rw [← htj]
        exact hdw
      · intro k hk1 hk2
        rcases Nat.lt_or_ge k i with hk | hk
        · rw [hcj]
          exact hall k hk1 hk
        · have hki : k = i := by omega
          rw [hki, hcj]
          exact hcl
      · rw [hpt, hcj]
      · rw [hsucc, heq, hcj]
    · exact absurd (by rw [hsucc, heq]) hchange
  · rintro ⟨mo, lv, cur, lr, st, pt, ps, gb⟩ raw now h
    cases h
    exact ⟨rfl, rfl, rfl⟩

/-- Hysteresis tr used by the C1 witness: a fresh candidate 1 is
recorded at tick 5 and proposed again at tick 2000, surviving the dwell,
so the stable target changes at step 1. -/
def dwell_trace : List (ℚ × ℤ) := [(1, 5), (1, 2000)]

/-- Initial hysteresis state for the C1 witness. -/
def dwell_h0 : HState := ⟨0, none, none⟩

/-- Witness for C1 on a concrete two-step tr and a concrete
manual-mode state. -/
theorem C1_stable_target_dwell_witness :
    (∃ j, j < 1 ∧
      TARGET_CHANGE_DELAY_MS ≤ time_at dwell_trace 1 - time_at dwell_trace j ∧
      (∀ k, j ≤ k → k ≤ 1 → |cand_at dwell_trace k - cand_at dwell_trace j| < TARGET_EPSILON) ∧
      (h_after dwell_h0 dwell_trace 1).pending_target = some (cand_at dwell_trace j) ∧
      (h_after dwell_h0 dwell_trace 1).pending_since = some (time_at dwell_trace j) ∧
      (h_after dwell_h0 dwell_trace 2).stable_target = cand_at dwell_trace j) ∧
    ((update manual_state_50 17 5).stable_target = get_corrected_level manual_state_50.level ∧
      (update manual_state_50 17 5).pending_target = none ∧
      (update manual_state_50 17 5).pending_since = none) :=
  ⟨C1_stable_target_dwell.1 dwell_h0 dwell_trace 1 rfl (by norm_num [dwell_trace])
      (by norm_num [h_after, dwell_trace, dwell_h0, run_h, hysteresis_step, is_target_close,
        TARGET_EPSILON, ticks_diff, TARGET_CHANGE_DELAY_MS]),
   C1_stable_target_dwell.2 manual_state_50 17 5 rfl⟩

end UnicornClock
